import Mathlib

/-
Verification of the cosmwasm-option contract (src/contract.rs).

The contract is a single-option state machine with five operations:
instantiate (create), transfer, finalize (exercise), burn (expiry refund)
and query (read).  We embed it shallowly: the stored record `State` is an
`Option State` value threaded through every operation; each operation
returns the outcome (`Except ContractError Response`) together with the
storage after the call.  Early `return Err(...)` in the source happens
before any storage write, and the embedding mirrors that control flow
directly.

Machine integers: `expires` and the block height are u64 in the source and
coin amounts are Uint128; the contract performs no arithmetic on them
(only `<=`, `>=`, `>` comparisons and equality), so they are embedded as
`Nat`.  Addresses (`Addr`) are embedded as `String`; the contract only
clones and compares them.
-/

namespace CosmOption

/-- A coin: `cosmwasm_std::Coin` with a denomination and an amount
(Uint128 in the source; no arithmetic is performed on amounts, so `Nat`). -/
structure Coin where
  denom : String
  amount : Nat
deriving DecidableEq

/-- The stored option record, `crate::state::State`: the state module is not
under src/, but every field is fixed by its uses in contract.rs and by the
spec's data model (creator, owner, collateral, counter_offer, expires). -/
structure State where
  creator : String
  owner : String
  collateral : List Coin
  counter_offer : List Coin
  expires : Nat
deriving DecidableEq

/-- `env.block` of `cosmwasm_std::Env`: only the height is read. -/
structure BlockInfo where
  height : Nat
deriving DecidableEq

/-- `cosmwasm_std::Env`: only `env.block.height` is read by the contract. -/
structure Env where
  block : BlockInfo
deriving DecidableEq

/-- `cosmwasm_std::MessageInfo`: the caller's address and the funds
attached to the call. -/
structure MessageInfo where
  sender : String
  funds : List Coin
deriving DecidableEq

/-- `cosmwasm_std::BankMsg::Send`: an outgoing fund transfer. -/
inductive BankMsg where
  | Send (to_address : String) (amount : List Coin)
deriving DecidableEq

/-- `cosmwasm_std::Response`, restricted to what the contract produces:
a list of outgoing messages and a list of key/value attributes. -/
structure Response where
  messages : List BankMsg
  attributes : List (String × String)
deriving DecidableEq

/-- `Response::new()` / `Response::default()`: empty messages and attributes. -/
def Response.new : Response := ⟨[], []⟩

/-- `Response::add_message`: appends an outgoing message. -/
def Response.add_message (r : Response) (m : BankMsg) : Response :=
  { r with messages := r.messages ++ [m] }

/-- `Response::add_attribute`: appends a key/value attribute. -/
def Response.add_attribute (r : Response) (k v : String) : Response :=
  { r with attributes := r.attributes ++ [(k, v)] }

/-- Modelled from the spec: `crate::error::ContractError` (error.rs) is not
under src/.  contract.rs shows two constructors, `Unauthorized {}` and
`CustomError { val: String }`, the latter built from five distinct format
strings; the spec's error taxonomy (section 7) names them Expired,
NotYetExpired, FundsMismatch, FundsNotEmpty.  We embed each format site as
a structured constructor carrying exactly the values interpolated into its
message, and `NotFound` for the `StdError` produced by `STATE.load` /
`STATE.update` when no record exists (propagated through `?`). -/
inductive ContractError where
  | Unauthorized : ContractError
  | Expired (expires : Nat) (height : Nat) : ContractError
  | NotYetExpired (expires : Nat) (height : Nat) : ContractError
  | FundsMismatch (counter_offer : List Coin) (funds : List Coin) : ContractError
  | FundsNotEmpty (funds : List Coin) : ContractError
  | NotFound : ContractError
deriving DecidableEq

/-- The storage cell backing `STATE`: at most one record. -/
abbrev Storage := Option State

/-- `instantiate` (contract.rs lines 15-40).  Rejects `expires <=
env.block.height` with the Expired error; otherwise stores a fresh record
with `creator = owner = info.sender`, `collateral = info.funds`, and the
request's `counter_offer` and `expires`, returning `Response::default()`.
The cw2 `set_contract_version` bookkeeping write is outside the embedded
record and is omitted.  The host guarantees instantiate runs on empty
storage; like the source, the definition does not read the prior cell. -/
def instantiate (storage : Storage) (env : Env) (info : MessageInfo)
    (counter_offer : List Coin) (expires : Nat) :
    Except ContractError Response × Storage :=
  if expires ≤ env.block.height then
    (.error (.Expired expires env.block.height), storage)
  else
    (.ok Response.new,
     some { creator := info.sender, owner := info.sender,
            collateral := info.funds, counter_offer := counter_offer,
            expires := expires })

/-- `transfer` (contract.rs lines 56-72).  `STATE.update` loads the record
(failing with the std not-found error when absent), rejects callers other
than the owner with `Unauthorized` (aborting the update, so nothing is
saved), otherwise saves the record with `owner = recipient` and returns a
response with the attributes `action: transfer` and `owner: recipient`.
The `_env` parameter is unused, as in the source. -/
def transfer (storage : Storage) (_env : Env) (info : MessageInfo)
    (recipient : String) : Except ContractError Response × Storage :=
  match storage with
  | none => (.error .NotFound, none)
  | some state =>
    if info.sender ≠ state.owner then
      (.error .Unauthorized, some state)
    else
      (.ok ((Response.new.add_attribute "action" "transfer").add_attribute
          "owner" recipient),
       some { state with owner := recipient })

/-- `finalize` (contract.rs lines 74-109).  Loads the record, then checks
in order: caller must be the owner (`Unauthorized`), the block height must
be strictly below `expires` (Expired error), and the attached funds must
equal `counter_offer` — the source compares `info.funds !=
state.counter_offer`, Rust `Vec` equality, i.e. element-wise equality in
order.  If all pass it removes the record and responds with two bank sends
(counter_offer to creator, collateral to the pre-removal owner) and the
attribute `action: execute`. -/
def finalize (storage : Storage) (env : Env) (info : MessageInfo) :
    Except ContractError Response × Storage :=
  match storage with
  | none => (.error .NotFound, none)
  | some state =>
    if info.sender ≠ state.owner then
      (.error .Unauthorized, some state)
    else if state.expires ≤ env.block.height then
      (.error (.Expired state.expires env.block.height), some state)
    else if info.funds ≠ state.counter_offer then
      (.error (.FundsMismatch state.counter_offer info.funds), some state)
    else
      (.ok (((Response.new.add_message
          (.Send state.creator state.counter_offer)).add_message
          (.Send state.owner state.collateral)).add_attribute
          "action" "execute"),
       none)

/-- `burn` (contract.rs lines 111-136).  Loads the record, then checks in
order: the record must be expired, `state.expires > env.block.height`
fails (NotYetExpired error), and the attached funds must be empty
(FundsNotEmpty error).  No authorization check.  If both pass it removes
the record and responds with one bank send (collateral to creator) and the
attribute `action: burn`. -/
def burn (storage : Storage) (env : Env) (info : MessageInfo) :
    Except ContractError Response × Storage :=
  match storage with
  | none => (.error .NotFound, none)
  | some state =>
    if env.block.height < state.expires then
      (.error (.NotYetExpired state.expires env.block.height), some state)
    else if info.funds ≠ [] then
      (.error (.FundsNotEmpty info.funds), some state)
    else
      (.ok ((Response.new.add_message
          (.Send state.creator state.collateral)).add_attribute
          "action" "burn"),
       none)

/-- `query` with `QueryMsg::Config` (contract.rs lines 139-146): loads and
returns the record, failing with the std not-found error when absent.
Serialization to binary is omitted; no side effects. -/
def read (storage : Storage) : Except ContractError State :=
  match storage with
  | none => .error .NotFound
  | some state => .ok state

/-- `ExecuteMsg` (msg.rs, fixed by the dispatch in contract.rs lines
49-53): the three mutating operations. -/
inductive ExecuteMsg where
  | Transfer (recipient : String)
  | Finalize
  | Burn
deriving DecidableEq

/-- `execute` (contract.rs lines 43-54): dispatch to the operation. -/
def execute (storage : Storage) (env : Env) (info : MessageInfo)
    (msg : ExecuteMsg) : Except ContractError Response × Storage :=
  match msg with
  | .Transfer recipient => transfer storage env info recipient
  | .Finalize => finalize storage env info
  | .Burn => burn storage env info

/-- Multiset equality of fund lists, the comparison the spec prescribes for
fund matching: the two lists are permutations of each other — same
denominations with the same per-denomination amounts, order irrelevant.
This is the spec-side notion, to be compared against the source's
`info.funds != state.counter_offer` list equality. -/
def fundsMatchMultiset (funds counter_offer : List Coin) : Prop :=
  List.Perm funds counter_offer

instance (funds counter_offer : List Coin) :
    Decidable (fundsMatchMultiset funds counter_offer) :=
  List.decidablePerm funds counter_offer

/-- C1: the claim says fund matching in `finalize` is multiset equality
(any reordering of `counter_offer` passes).  It is false: the source
compares `info.funds != state.counter_offer` with Rust `Vec` equality,
which is order-sensitive.  Concretely, with `counter_offer = [40 ETH,
1 BTC]` and supplied funds `[1 BTC, 40 ETH]` — the same multiset — the
owner's pre-expiry finalize fails with the FundsMismatch error. -/
theorem C1_counterexample :
    fundsMatchMultiset [⟨"BTC", 1⟩, ⟨"ETH", 40⟩] [⟨"ETH", 40⟩, ⟨"BTC", 1⟩] ∧
    finalize
      (some ⟨"creator", "owner", [⟨"BTC", 1⟩], [⟨"ETH", 40⟩, ⟨"BTC", 1⟩], 100⟩)
      ⟨⟨50⟩⟩ ⟨"owner", [⟨"BTC", 1⟩, ⟨"ETH", 40⟩]⟩ =
      (.error (.FundsMismatch [⟨"ETH", 40⟩, ⟨"BTC", 1⟩]
        [⟨"BTC", 1⟩, ⟨"ETH", 40⟩]),
       some ⟨"creator", "owner", [⟨"BTC", 1⟩], [⟨"ETH", 40⟩, ⟨"BTC", 1⟩], 100⟩) :=
  ⟨by decide, by rfl⟩

/-- C1 (amended): the fund-matching check of finalize is exact list
equality, order included.  For every active record, owner caller and
pre-expiry height: funds equal to `counter_offer` as a list pass the check
and finalize succeeds; funds differing from `counter_offer` as a list —
including any multiset-equal reordering — fail with the FundsMismatch
error carrying the expected `counter_offer` and the received funds; in
particular every multiset difference (partial payment, over-payment) also
fails that way. -/
theorem C1_fund_matching (st : State) (env : Env) (info : MessageInfo)
    (hown : info.sender = st.owner) (hexp : env.block.height < st.expires) :
    (info.funds = st.counter_offer →
      finalize (some st) env info =
        (.ok ⟨[.Send st.creator st.counter_offer, .Send st.owner st.collateral],
              [("action", "execute")]⟩, none)) ∧
    (info.funds ≠ st.counter_offer →
      finalize (some st) env info =
        (.error (.FundsMismatch st.counter_offer info.funds), some st)) ∧
    (¬ fundsMatchMultiset info.funds st.counter_offer →
      finalize (some st) env info =
        (.error (.FundsMismatch st.counter_offer info.funds), some st)) := by
  refine ⟨fun h => ?_, fun h => ?_, fun h => ?_⟩
  · simp [finalize, hown, h, Nat.not_le.mpr hexp, Response.new,
      Response.add_message, Response.add_attribute]
  · simp [finalize, hown, h, Nat.not_le.mpr hexp]
  · have hne : info.funds ≠ st.counter_offer := fun heq => h (heq ▸ List.Perm.refl _)
    simp [finalize, hown, hne, Nat.not_le.mpr hexp]

/-- Witness for C1_fund_matching at a concrete record: exact-order funds
succeed, reversed funds fail with FundsMismatch. -/
theorem C1_fund_matching_witness :
    finalize (some ⟨"c", "o", [⟨"BTC", 1⟩], [⟨"ETH", 40⟩], 1000⟩) ⟨⟨7⟩⟩
      ⟨"o", [⟨"ETH", 40⟩]⟩ =
      (.ok ⟨[.Send "c" [⟨"ETH", 40⟩], .Send "o" [⟨"BTC", 1⟩]],
            [("action", "execute")]⟩, none) ∧
    finalize (some ⟨"c", "o", [⟨"BTC", 1⟩], [⟨"ETH", 40⟩], 1000⟩) ⟨⟨7⟩⟩
      ⟨"o", [⟨"ETH", 39⟩]⟩ =
      (.error (.FundsMismatch [⟨"ETH", 40⟩] [⟨"ETH", 39⟩]),
       some ⟨"c", "o", [⟨"BTC", 1⟩], [⟨"ETH", 40⟩], 1000⟩) :=
  ⟨(C1_fund_matching ⟨"c", "o", [⟨"BTC", 1⟩], [⟨"ETH", 40⟩], 1000⟩ ⟨⟨7⟩⟩
      ⟨"o", [⟨"ETH", 40⟩]⟩ rfl (by decide)).1 rfl,
   ((C1_fund_matching ⟨"c", "o", [⟨"BTC", 1⟩], [⟨"ETH", 40⟩], 1000⟩ ⟨⟨7⟩⟩
      ⟨"o", [⟨"ETH", 39⟩]⟩ rfl (by decide)).2).1 (by decide)⟩

/-- C2: for every active record, a finalize call by the current owner at a
height strictly below `expires` with funds equal to `counter_offer`
succeeds: the record is removed (storage becomes empty), the response
carries exactly two bank sends — `counter_offer` to `creator` then
`collateral` to the pre-removal `owner` — and the single attribute
`action: execute`. -/
theorem C2_finalize_success (st : State) (env : Env) (info : MessageInfo)
    (hown : info.sender = st.owner) (hexp : env.block.height < st.expires)
    (hfunds : info.funds = st.counter_offer) :
    finalize (some st) env info =
      (.ok ⟨[.Send st.creator st.counter_offer, .Send st.owner st.collateral],
            [("action", "execute")]⟩, none) := by
  simp [finalize, hown, hfunds, Nat.not_le.mpr hexp, Response.new,
    Response.add_message, Response.add_attribute]

/-- Witness for C2_finalize_success at a concrete record. -/
theorem C2_finalize_success_witness :
    finalize (some ⟨"alice", "bob", [⟨"BTC", 2⟩], [⟨"ETH", 5⟩], 300⟩) ⟨⟨299⟩⟩
      ⟨"bob", [⟨"ETH", 5⟩]⟩ =
      (.ok ⟨[.Send "alice" [⟨"ETH", 5⟩], .Send "bob" [⟨"BTC", 2⟩]],
            [("action", "execute")]⟩, none) :=
  C2_finalize_success ⟨"alice", "bob", [⟨"BTC", 2⟩], [⟨"ETH", 5⟩], 300⟩ ⟨⟨299⟩⟩
    ⟨"bob", [⟨"ETH", 5⟩]⟩ rfl (by decide) rfl

/-- C3: the three finalize constraints are checked in the fixed order
authorization, expiry, fund-matching, and the first failing one determines
the error: a non-owner caller gets Unauthorized whatever the height and
funds; the owner at height at or above `expires` gets the Expired error
whatever the funds; the owner before expiry with funds unequal to
`counter_offer` gets the FundsMismatch error.  In every failing case the
record is left unchanged. -/
theorem C3_check_order (st : State) (env : Env) (info : MessageInfo) :
    (info.sender ≠ st.owner →
      finalize (some st) env info = (.error .Unauthorized, some st)) ∧
    (info.sender = st.owner → st.expires ≤ env.block.height →
      finalize (some st) env info =
        (.error (.Expired st.expires env.block.height), some st)) ∧
    (info.sender = st.owner → env.block.height < st.expires →
      info.funds ≠ st.counter_offer →
      finalize (some st) env info =
        (.error (.FundsMismatch st.counter_offer info.funds), some st)) := by
  refine ⟨fun h => ?_, fun h1 h2 => ?_, fun h1 h2 h3 => ?_⟩
  · simp [finalize, h]
  · simp [finalize, h1, h2]
  · simp [finalize, h1, h3, Nat.not_le.mpr h2]

/-- Witness for C3_check_order: each of the three failure shapes at a
concrete input. -/
theorem C3_check_order_witness :
    finalize (some ⟨"c", "o", [⟨"BTC", 1⟩], [⟨"ETH", 40⟩], 100⟩) ⟨⟨5⟩⟩
      ⟨"eve", [⟨"ETH", 40⟩]⟩ = (.error .Unauthorized,
        some ⟨"c", "o", [⟨"BTC", 1⟩], [⟨"ETH", 40⟩], 100⟩) ∧
    finalize (some ⟨"c", "o", [⟨"BTC", 1⟩], [⟨"ETH", 40⟩], 100⟩) ⟨⟨100⟩⟩
      ⟨"o", [⟨"ETH", 40⟩]⟩ = (.error (.Expired 100 100),
        some ⟨"c", "o", [⟨"BTC", 1⟩], [⟨"ETH", 40⟩], 100⟩) ∧
    finalize (some ⟨"c", "o", [⟨"BTC", 1⟩], [⟨"ETH", 40⟩], 100⟩) ⟨⟨5⟩⟩
      ⟨"o", [⟨"ETH", 39⟩]⟩ = (.error (.FundsMismatch [⟨"ETH", 40⟩] [⟨"ETH", 39⟩]),
        some ⟨"c", "o", [⟨"BTC", 1⟩], [⟨"ETH", 40⟩], 100⟩) :=
  ⟨(C3_check_order ⟨"c", "o", [⟨"BTC", 1⟩], [⟨"ETH", 40⟩], 100⟩ ⟨⟨5⟩⟩
      ⟨"eve", [⟨"ETH", 40⟩]⟩).1 (by decide),
   (C3_check_order ⟨"c", "o", [⟨"BTC", 1⟩], [⟨"ETH", 40⟩], 100⟩ ⟨⟨100⟩⟩
      ⟨"o", [⟨"ETH", 40⟩]⟩).2.1 rfl (by decide),
   (C3_check_order ⟨"c", "o", [⟨"BTC", 1⟩], [⟨"ETH", 40⟩], 100⟩ ⟨⟨5⟩⟩
      ⟨"o", [⟨"ETH", 39⟩]⟩).2.2 rfl (by decide) (by decide)⟩

/-- C4: for every active record, burn succeeds iff the height is at or
above `expires` and the attached funds are empty, for any caller (the
sender is never inspected): on success the record is removed and the
response carries exactly one bank send of `collateral` to `creator` with
the single attribute `action: burn`; below expiry it fails with the
NotYetExpired error carrying `expires` and the height; at or after expiry
with nonempty funds it fails with the FundsNotEmpty error carrying the
funds.  Failures leave the record unchanged. -/
theorem C4_burn (st : State) (env : Env) (info : MessageInfo) :
    (st.expires ≤ env.block.height → info.funds = [] →
      burn (some st) env info =
        (.ok ⟨[.Send st.creator st.collateral], [("action", "burn")]⟩, none)) ∧
    (env.block.height < st.expires →
      burn (some st) env info =
        (.error (.NotYetExpired st.expires env.block.height), some st)) ∧
    (st.expires ≤ env.block.height → info.funds ≠ [] →
      burn (some st) env info =
        (.error (.FundsNotEmpty info.funds), some st)) := by
  refine ⟨fun h1 h2 => ?_, fun h => ?_, fun h1 h2 => ?_⟩
  · simp [burn, Nat.not_lt.mpr h1, h2, Response.new, Response.add_message,
      Response.add_attribute]
  · simp [burn, h]
  · simp [burn, Nat.not_lt.mpr h1, h2]

/-- Witness for C4_burn: success by a stranger after expiry, NotYetExpired
before expiry, FundsNotEmpty after expiry with funds attached. -/
theorem C4_burn_witness :
    burn (some ⟨"c", "o", [⟨"BTC", 1⟩], [⟨"ETH", 40⟩], 100⟩) ⟨⟨100⟩⟩
      ⟨"stranger", []⟩ =
      (.ok ⟨[.Send "c" [⟨"BTC", 1⟩]], [("action", "burn")]⟩, none) ∧
    burn (some ⟨"c", "o", [⟨"BTC", 1⟩], [⟨"ETH", 40⟩], 100⟩) ⟨⟨99⟩⟩
      ⟨"stranger", []⟩ =
      (.error (.NotYetExpired 100 99),
       some ⟨"c", "o", [⟨"BTC", 1⟩], [⟨"ETH", 40⟩], 100⟩) ∧
    burn (some ⟨"c", "o", [⟨"BTC", 1⟩], [⟨"ETH", 40⟩], 100⟩) ⟨⟨100⟩⟩
      ⟨"stranger", [⟨"ETH", 1⟩]⟩ =
      (.error (.FundsNotEmpty [⟨"ETH", 1⟩]),
       some ⟨"c", "o", [⟨"BTC", 1⟩], [⟨"ETH", 40⟩], 100⟩) :=
  ⟨(C4_burn ⟨"c", "o", [⟨"BTC", 1⟩], [⟨"ETH", 40⟩], 100⟩ ⟨⟨100⟩⟩
      ⟨"stranger", []⟩).1 (by decide) rfl,
   (C4_burn ⟨"c", "o", [⟨"BTC", 1⟩], [⟨"ETH", 40⟩], 100⟩ ⟨⟨99⟩⟩
      ⟨"stranger", []⟩).2.1 (by decide),
   (C4_burn ⟨"c", "o", [⟨"BTC", 1⟩], [⟨"ETH", 40⟩], 100⟩ ⟨⟨100⟩⟩
      ⟨"stranger", [⟨"ETH", 1⟩]⟩).2.2 (by decide) (by decide)⟩

/-- C5: creation with `expires` at or below the current height fails with
the Expired error carrying the attempted expiry and the height, leaving
storage untouched; with `expires` strictly above the height it succeeds
and the stored record, read back immediately, has the request's
`counter_offer` and `expires`, the attached funds as `collateral`, and
creator and owner both equal to the caller. -/
theorem C5_create_roundtrip (storage : Storage) (env : Env)
    (info : MessageInfo) (counter_offer : List Coin) (expires : Nat) :
    (expires ≤ env.block.height →
      instantiate storage env info counter_offer expires =
        (.error (.Expired expires env.block.height), storage)) ∧
    (env.block.height < expires →
      ∃ st : State,
        instantiate storage env info counter_offer expires =
          (.ok Response.new, some st) ∧
        read (some st) = .ok st ∧
        st.counter_offer = counter_offer ∧ st.expires = expires ∧
        st.collateral = info.funds ∧
        st.creator = info.sender ∧ st.owner = info.sender) := by
  refine ⟨fun h => ?_, fun h => ?_⟩
  · simp [instantiate, h]
  · refine ⟨⟨info.sender, info.sender, info.funds, counter_offer, expires⟩,
      ?_, rfl, rfl, rfl, rfl, rfl, rfl⟩
    simp [instantiate, Nat.not_le.mpr h]

/-- Witness for C5_create_roundtrip: a failing creation at height 100 with
expires 100, and a succeeding one with expires 101. -/
theorem C5_create_roundtrip_witness :
    instantiate none ⟨⟨100⟩⟩ ⟨"maker", [⟨"BTC", 3⟩]⟩ [⟨"ETH", 9⟩] 100 =
      (.error (.Expired 100 100), none) ∧
    ∃ st : State,
      instantiate none ⟨⟨100⟩⟩ ⟨"maker", [⟨"BTC", 3⟩]⟩ [⟨"ETH", 9⟩] 101 =
        (.ok Response.new, some st) ∧
      read (some st) = .ok st ∧
      st.counter_offer = [⟨"ETH", 9⟩] ∧ st.expires = 101 ∧
      st.collateral = [⟨"BTC", 3⟩] ∧
      st.creator = "maker" ∧ st.owner = "maker" :=
  ⟨(C5_create_roundtrip none ⟨⟨100⟩⟩ ⟨"maker", [⟨"BTC", 3⟩]⟩
      [⟨"ETH", 9⟩] 100).1 (by decide),
   (C5_create_roundtrip none ⟨⟨100⟩⟩ ⟨"maker", [⟨"BTC", 3⟩]⟩
      [⟨"ETH", 9⟩] 101).2 (by decide)⟩

/-- C6: transfer by a caller other than the owner fails with Unauthorized
and leaves the record unchanged; transfer by the owner to `x` succeeds,
sets `owner = x` while keeping `creator`, `collateral`, `counter_offer`
and `expires` unchanged, sends no messages, and emits exactly the
attributes `action: transfer` and `owner: x`. -/
theorem C6_transfer (st : State) (env : Env) (info : MessageInfo)
    (x : String) :
    (info.sender ≠ st.owner →
      transfer (some st) env info x = (.error .Unauthorized, some st)) ∧
    (info.sender = st.owner →
      transfer (some st) env info x =
        (.ok ⟨[], [("action", "transfer"), ("owner", x)]⟩,
         some ⟨st.creator, x, st.collateral, st.counter_offer,
               st.expires⟩)) := by
  refine ⟨fun h => ?_, fun h => ?_⟩
  · simp [transfer, h]
  · simp [transfer, h, Response.new, Response.add_attribute]

/-- Witness for C6_transfer: a rejected transfer by a stranger and a
successful transfer by the owner. -/
theorem C6_transfer_witness :
    transfer (some ⟨"c", "o", [⟨"BTC", 1⟩], [⟨"ETH", 40⟩], 100⟩) ⟨⟨5⟩⟩
      ⟨"eve", []⟩ "eve" =
      (.error .Unauthorized,
       some ⟨"c", "o", [⟨"BTC", 1⟩], [⟨"ETH", 40⟩], 100⟩) ∧
    transfer (some ⟨"c", "o", [⟨"BTC", 1⟩], [⟨"ETH", 40⟩], 100⟩) ⟨⟨5⟩⟩
      ⟨"o", []⟩ "newbie" =
      (.ok ⟨[], [("action", "transfer"), ("owner", "newbie")]⟩,
       some ⟨"c", "newbie", [⟨"BTC", 1⟩], [⟨"ETH", 40⟩], 100⟩) :=
  ⟨(C6_transfer ⟨"c", "o", [⟨"BTC", 1⟩], [⟨"ETH", 40⟩], 100⟩ ⟨⟨5⟩⟩
      ⟨"eve", []⟩ "eve").1 (by decide),
   (C6_transfer ⟨"c", "o", [⟨"BTC", 1⟩], [⟨"ETH", 40⟩], 100⟩ ⟨⟨5⟩⟩
      ⟨"o", []⟩ "newbie").2 rfl⟩

/-- C7: a successful finalize and a successful burn both leave the storage
empty, and against empty storage — the same situation as before any
creation — read fails with the not-found error and each of transfer,
finalize and burn fails with the not-found error while leaving the storage
empty, so no operation resurrects a removed record. -/
theorem C7_removed_permanently :
    (∀ st env info r s2,
      finalize (some st) env info = (.ok r, s2) → s2 = none) ∧
    (∀ st env info r s2,
      burn (some st) env info = (.ok r, s2) → s2 = none) ∧
    read none = .error .NotFound ∧
    (∀ env info x, transfer none env info x = (.error .NotFound, none)) ∧
    (∀ env info, finalize none env info = (.error .NotFound, none)) ∧
    (∀ env info, burn none env info = (.error .NotFound, none)) := by
  refine ⟨fun st env info r s2 h => ?_, fun st env info r s2 h => ?_,
    rfl, fun env info x => rfl, fun env info => rfl, fun env info => rfl⟩
  · by_cases h1 : info.sender ≠ st.owner
    · simp [finalize, h1] at h
    · by_cases h2 : st.expires ≤ env.block.height
      · simp [finalize, h1, h2] at h
      · by_cases h3 : info.funds ≠ st.counter_offer
        · simp [finalize, h1, h2, h3] at h
        · simp [finalize, h1, h2, h3, Prod.ext_iff] at h
          exact h.2.symm
  · by_cases h1 : env.block.height < st.expires
    · simp [burn, h1] at h
    · by_cases h2 : info.funds ≠ []
      · simp [burn, h1, h2] at h
      · simp [burn, h1, h2, Prod.ext_iff] at h
        exact h.2.symm

/-- Witness for C7_removed_permanently: a concrete successful finalize and
burn each leave storage empty, and the subsequent calls against empty
storage fail with the not-found error. -/
theorem C7_removed_permanently_witness :
    (none : Storage) = none ∧
    read none = .error .NotFound ∧
    transfer none ⟨⟨5⟩⟩ ⟨"o", []⟩ "p" = (.error .NotFound, none) ∧
    finalize none ⟨⟨5⟩⟩ ⟨"o", []⟩ = (.error .NotFound, none) ∧
    burn none ⟨⟨200⟩⟩ ⟨"o", []⟩ = (.error .NotFound, none) :=
  ⟨C7_removed_permanently.1 ⟨"c", "o", [], [⟨"ETH", 1⟩], 100⟩ ⟨⟨5⟩⟩
      ⟨"o", [⟨"ETH", 1⟩]⟩
      ⟨[.Send "c" [⟨"ETH", 1⟩], .Send "o" []], [("action", "execute")]⟩
      none (by rfl),
   C7_removed_permanently.2.2.1,
   C7_removed_permanently.2.2.2.1 ⟨⟨5⟩⟩ ⟨"o", []⟩ "p",
   C7_removed_permanently.2.2.2.2.1 ⟨⟨5⟩⟩ ⟨"o", []⟩,
   C7_removed_permanently.2.2.2.2.2 ⟨⟨200⟩⟩ ⟨"o", []⟩⟩

/-- C8: every operation is atomic with respect to failure: whenever
create, transfer, finalize or burn returns an error, the storage after the
call equals the storage before it — present or absent alike.  An error
outcome carries no `Response`, so a failed invocation issues no outgoing
bank message and no attribute; in the source every `return Err(...)`
precedes the storage write, which the embedding mirrors. -/
theorem C8_atomic_failure :
    (∀ storage env info co exp e s2,
      instantiate storage env info co exp = (.error e, s2) → s2 = storage) ∧
    (∀ storage env info x e s2,
      transfer storage env info x = (.error e, s2) → s2 = storage) ∧
    (∀ storage env info e s2,
      finalize storage env info = (.error e, s2) → s2 = storage) ∧
    (∀ storage env info e s2,
      burn storage env info = (.error e, s2) → s2 = storage) := by
  refine ⟨fun storage env info co exp e s2 h => ?_,
    fun storage env info x e s2 h => ?_,
    fun storage env info e s2 h => ?_,
    fun storage env info e s2 h => ?_⟩
  · by_cases hc : exp ≤ env.block.height
    · simp [instantiate, hc, Prod.ext_iff] at h
      exact h.2.symm
    · simp [instantiate, hc] at h
  · match storage with
    | none =>
      simp [transfer, Prod.ext_iff] at h
      exact h.2.symm
    | some st =>
      by_cases hc : info.sender ≠ st.owner
      · simp [transfer, hc, Prod.ext_iff] at h
        exact h.2.symm
      · simp [transfer, hc] at h
  · match storage with
    | none =>
      simp [finalize, Prod.ext_iff] at h
      exact h.2.symm
    | some st =>
      by_cases h1 : info.sender ≠ st.owner
      · simp [finalize, h1, Prod.ext_iff] at h
        exact h.2.symm
      · by_cases h2 : st.expires ≤ env.block.height
        · simp [finalize, h1, h2, Prod.ext_iff] at h
          exact h.2.symm
        · by_cases h3 : info.funds ≠ st.counter_offer
          · simp [finalize, h1, h2, h3, Prod.ext_iff] at h
            exact h.2.symm
          · simp [finalize, h1, h2, h3] at h
  · match storage with
    | none =>
      simp [burn, Prod.ext_iff] at h
      exact h.2.symm
    | some st =>
      by_cases h1 : env.block.height < st.expires
      · simp [burn, h1, Prod.ext_iff] at h
        exact h.2.symm
      · by_cases h2 : info.funds ≠ []
        · simp [burn, h1, h2, Prod.ext_iff] at h
          exact h.2.symm
        · simp [burn, h1, h2] at h

/-- Witness for C8_atomic_failure: one concrete failing call of each
operation, each leaving the storage exactly as before. -/
theorem C8_atomic_failure_witness :
    (none : Storage) = none ∧
    some (⟨"c", "o", [], [⟨"ETH", 1⟩], 100⟩ : State) =
      some ⟨"c", "o", [], [⟨"ETH", 1⟩], 100⟩ ∧
    some (⟨"c", "o", [], [⟨"ETH", 1⟩], 100⟩ : State) =
      some ⟨"c", "o", [], [⟨"ETH", 1⟩], 100⟩ ∧
    some (⟨"c", "o", [], [⟨"ETH", 1⟩], 100⟩ : State) =
      some ⟨"c", "o", [], [⟨"ETH", 1⟩], 100⟩ :=
  ⟨C8_atomic_failure.1 none ⟨⟨100⟩⟩ ⟨"m", []⟩ [] 100 (.Expired 100 100)
      none (by rfl),
   C8_atomic_failure.2.1 (some ⟨"c", "o", [], [⟨"ETH", 1⟩], 100⟩) ⟨⟨5⟩⟩
      ⟨"eve", []⟩ "eve" .Unauthorized
      (some ⟨"c", "o", [], [⟨"ETH", 1⟩], 100⟩) (by rfl),
   C8_atomic_failure.2.2.1 (some ⟨"c", "o", [], [⟨"ETH", 1⟩], 100⟩) ⟨⟨5⟩⟩
      ⟨"o", []⟩ (.FundsMismatch [⟨"ETH", 1⟩] [])
      (some ⟨"c", "o", [], [⟨"ETH", 1⟩], 100⟩) (by rfl),
   C8_atomic_failure.2.2.2 (some ⟨"c", "o", [], [⟨"ETH", 1⟩], 100⟩) ⟨⟨5⟩⟩
      ⟨"o", []⟩ (.NotYetExpired 100 5)
      (some ⟨"c", "o", [], [⟨"ETH", 1⟩], 100⟩) (by rfl)⟩

/-- C9: transfer performs no block-height check: its result does not
depend on the environment at all, and a transfer by the current owner
succeeds and changes ownership at every height, in particular at heights
at or above `expires` — an expired-but-unburned option's ownership can
still be transferred. -/
theorem C9_transfer_ignores_height (st : State) (env env2 : Env)
    (info : MessageInfo) (x : String) :
    transfer (some st) env info x = transfer (some st) env2 info x ∧
    (info.sender = st.owner → st.expires ≤ env.block.height →
      transfer (some st) env info x =
        (.ok ⟨[], [("action", "transfer"), ("owner", x)]⟩,
         some ⟨st.creator, x, st.collateral, st.counter_offer,
               st.expires⟩)) := by
  refine ⟨rfl, fun h _ => ?_⟩
  simp [transfer, h, Response.new, Response.add_attribute]

/-- Witness for C9_transfer_ignores_height: the owner transfers an option
whose expiry (100) is far below the current height (5000). -/
theorem C9_transfer_ignores_height_witness :
    transfer (some ⟨"c", "o", [⟨"BTC", 1⟩], [⟨"ETH", 40⟩], 100⟩) ⟨⟨5000⟩⟩
      ⟨"o", []⟩ "heir" =
      (.ok ⟨[], [("action", "transfer"), ("owner", "heir")]⟩,
       some ⟨"c", "heir", [⟨"BTC", 1⟩], [⟨"ETH", 40⟩], 100⟩) :=
  (C9_transfer_ignores_height ⟨"c", "o", [⟨"BTC", 1⟩], [⟨"ETH", 40⟩], 100⟩
    ⟨⟨5000⟩⟩ ⟨⟨0⟩⟩ ⟨"o", []⟩ "heir").2 rfl (by decide)

/-- C10: creation validates nothing besides the expiry bound: whenever
`expires` exceeds the current height, a creation call with no attached
funds succeeds and stores the empty list verbatim as `collateral`, and a
creation call with an empty `counter_offer` succeeds and stores the empty
list verbatim as `counter_offer` — zero-collateral and zero-price options
are accepted. -/
theorem C10_empty_lists_accepted (storage : Storage) (env : Env)
    (sender : String) (funds co : List Coin) (expires : Nat)
    (h : env.block.height < expires) :
    instantiate storage env ⟨sender, []⟩ co expires =
      (.ok Response.new, some ⟨sender, sender, [], co, expires⟩) ∧
    instantiate storage env ⟨sender, funds⟩ [] expires =
      (.ok Response.new, some ⟨sender, sender, funds, [], expires⟩) := by
  constructor <;> simp [instantiate, Nat.not_le.mpr h]

/-- Witness for C10_empty_lists_accepted: a zero-collateral and a
zero-price creation at height 10 with expires 11. -/
theorem C10_empty_lists_accepted_witness :
    instantiate none ⟨⟨10⟩⟩ ⟨"m", []⟩ [⟨"ETH", 40⟩] 11 =
      (.ok Response.new, some ⟨"m", "m", [], [⟨"ETH", 40⟩], 11⟩) ∧
    instantiate none ⟨⟨10⟩⟩ ⟨"m", [⟨"BTC", 1⟩]⟩ [] 11 =
      (.ok Response.new, some ⟨"m", "m", [⟨"BTC", 1⟩], [], 11⟩) :=
  C10_empty_lists_accepted none ⟨⟨10⟩⟩ "m" [⟨"BTC", 1⟩] [⟨"ETH", 40⟩] 11
    (by decide)

end CosmOption
